import Mathlib

/-!
Verification of the student-agent LLM-orchestration pipeline
(`src/agents/student_rag.py`, `src/agents/student_systemprompt.py`,
`src/agents/semantic_chunker.py`) against its specification.

The Python code is shallowly embedded: JSON values become an inductive
type (numbers as rationals), the repeated inline regex extraction of a
JSON candidate from free-form model output becomes explicit functions,
`json.loads` becomes a fuel-indexed recursive-descent parser following
Python's strict-mode semantics (unescaped control characters below
U+0020 are rejected inside strings; the non-standard NaN/Infinity
constants are not modelled, no input in scope involves them), and code
that can raise returns `Except`.
-/

namespace StudentAgent

/-- A JSON value as produced by `json.loads`.  Numbers are modelled as
rationals (Python ints and floats compare equal when numerically equal,
which the rationals reproduce; no claim in scope depends on binary
floating-point rounding).  Objects keep their key/value pairs in source
order; lookup takes the last binding, matching Python dict construction
where a later duplicate key overwrites an earlier one. -/
inductive Json where
  | null : Json
  | bool : Bool → Json
  | num : ℚ → Json
  | str : String → Json
  | arr : List Json → Json
  | obj : List (String × Json) → Json

/-- Python `dict` lookup on a dict built from a parsed JSON object:
the last binding for a key wins. -/
def objLookup (kvs : List (String × Json)) (k : String) : Option Json :=
  (kvs.reverse.find? (fun p => p.1 == k)).map (fun p => p.2)

/-- Python `dict.get(k, d)`. -/
def objGetD (kvs : List (String × Json)) (k : String) (d : Json) : Json :=
  (objLookup kvs k).getD d

/-- Python `len(x)` on a value obtained from JSON: defined for lists,
strings and dicts (a dict built from a JSON object counts its distinct
keys, later duplicates having overwritten earlier ones), a `TypeError`
otherwise. -/
def pyLen : Json → Except String Nat
  | Json.arr l => .ok l.length
  | Json.str s => .ok s.length
  | Json.obj kvs => .ok ((kvs.map (fun p => p.1)).eraseDups.length)
  | _ => .error "TypeError: object has no len"

/-- Python `x[0]` on a value obtained from JSON: first element of a
non-empty list, one-character string for a non-empty string, `KeyError`
for a dict (JSON keys are strings, never the int `0`), `IndexError` for
empty sequences, `TypeError` otherwise. -/
def pyIndex0 : Json → Except String Json
  | Json.arr (x :: _) => .ok x
  | Json.arr [] => .error "IndexError: list index out of range"
  | Json.str s =>
    match s.toList with
    | [] => .error "IndexError: string index out of range"
    | c :: _ => .ok (Json.str (String.mk [c]))
  | Json.obj _ => .error "KeyError: 0"
  | _ => .error "TypeError: object is not subscriptable"

/-- Python `for x in v`: lists iterate elements, strings iterate
one-character strings, dicts iterate their (distinct) keys, everything
else raises `TypeError`. -/
def pyIterate : Json → Except String (List Json)
  | Json.arr l => .ok l
  | Json.str s => .ok (s.toList.map (fun c => Json.str (String.mk [c])))
  | Json.obj kvs => .ok (((kvs.map (fun p => p.1)).eraseDups).map Json.str)
  | _ => .error "TypeError: object is not iterable"

/-- Python `v[k]` for a string key `k`: dict lookup (`KeyError` when
missing), `TypeError` on any non-dict. -/
def pyGetItemStr (v : Json) (k : String) : Except String Json :=
  match v with
  | Json.obj kvs =>
    match objLookup kvs k with
    | some x => .ok x
    | none => .error "KeyError"
  | _ => .error "TypeError: indices must be integers"

/-! ## Character and list utilities -/

/-- JSON whitespace, as skipped by Python's `json` scanner. -/
def jsonWs (c : Char) : Bool :=
  c = ' ' || c = Char.ofNat 9 || c = Char.ofNat 10 || c = Char.ofNat 13

/-- Python `\s` / `str.strip()` whitespace (ASCII range). -/
def pyWsChar (c : Char) : Bool :=
  c = ' ' || c = Char.ofNat 9 || c = Char.ofNat 10 || c = Char.ofNat 13 ||
  c = Char.ofNat 11 || c = Char.ofNat 12

/-- Strip `pyWsChar` whitespace from both ends, like Python `str.strip()`
and like the greedy outer whitespace groups of the fenced-block regex. -/
def stripPyWs (cs : List Char) : List Char :=
  ((cs.dropWhile pyWsChar).reverse.dropWhile pyWsChar).reverse

/-- Index of the first occurrence of `pat` as a contiguous sublist of
`cs` (the leftmost regex match position for a literal pattern). -/
def findSub (pat : List Char) : List Char → Option Nat
  | [] => if pat.isEmpty then some 0 else none
  | c :: rest =>
    if pat.isPrefixOf (c :: rest) then some 0
    else (findSub pat rest).map (fun n => n + 1)

/-- Index of the first occurrence of character `c`. -/
def firstIdxOf (c : Char) : List Char → Option Nat
  | [] => none
  | x :: rest => if x = c then some 0 else (firstIdxOf c rest).map (fun n => n + 1)

/-- Index of the last occurrence of character `c`. -/
def lastIdxOf (c : Char) (cs : List Char) : Option Nat :=
  (firstIdxOf c cs.reverse).map (fun k => cs.length - 1 - k)

/-- The opening brace, written out of band so that no brace characters
appear in string literals of this file. -/
def lbrace : Char := Char.ofNat 123

/-- The closing brace. -/
def rbrace : Char := Char.ofNat 125

/-! ## Candidate extraction

Every stage of `student_rag.py` / `student_systemprompt.py` and the
chunker's grounding extraction repeat the same inline code: first
`re.search` for a fenced block with pattern matching three backticks,
the letters `json`, optional whitespace, a lazily captured group,
optional whitespace and three closing backticks (with DOTALL), and
otherwise `re.search` for the greedy single group matching an opening
brace, any characters (DOTALL) and a closing brace. -/

/-- The fenced-block extraction.  The leftmost match starts at the first
occurrence of the opening marker; the lazy group ends at the next
occurrence of three backticks; the two greedy whitespace groups strip
the interior.  If the first opening marker has no closing marker after
it, no later one does either, so the whole search fails. -/
def fencedCandidate (s : String) : Option String :=
  let cs := s.toList
  match findSub ("```json".toList) cs with
  | none => none
  | some p =>
    let after := cs.drop (p + 7)
    match findSub ("```".toList) after with
    | none => none
    | some q => some (String.mk (stripPyWs (after.take q)))

/-- The greedy brace-span extraction: the single candidate runs from the
first opening brace (that precedes the last closing brace) to the last
closing brace of the whole text. -/
def braceCandidate (s : String) : Option String :=
  let cs := s.toList
  match lastIdxOf rbrace cs with
  | none => none
  | some j =>
    match firstIdxOf lbrace (cs.take j) with
    | none => none
    | some i => some (String.mk ((cs.drop i).take (j - i + 1)))

/-- The candidate extraction shared verbatim by `plan_node`,
`knowledge_retrieval_node`, `answer_node`, `critique_node` (both agent
variants) and `SemanticChunker.extract_chunk`: fenced block first,
greedy brace span otherwise. -/
def stageCandidate (s : String) : Option String :=
  match fencedCandidate s with
  | some c => some c
  | none => braceCandidate s

/-- `re.sub` removal of control characters (U+0000 to U+001F and
U+007F to U+009F), as performed by `answer_node` and `critique_node`
before `json.loads`. -/
def stripCtrl (s : String) : String :=
  String.mk (s.toList.filter (fun c =>
    !(c.toNat < 32 || (127 <= c.toNat && c.toNat <= 159))))

/-! ## `json.loads`

A recursive-descent parser for the JSON accepted by Python's
`json.loads` in its default strict mode: standard JSON values, JSON
whitespace between tokens, rejection of unescaped control characters
below U+0020 inside strings, rejection of trailing data, last duplicate
object key winning.  Recursion is bounded by an explicit fuel that is
always sufficient for the given input (it bounds the recursion depth,
which never exceeds the input length). -/

/-- Hexadecimal digit value. -/
def hexVal (c : Char) : Option Nat :=
  if '0' ≤ c && c ≤ '9' then some (c.toNat - 48)
  else if 'a' ≤ c && c ≤ 'f' then some (c.toNat - 87)
  else if 'A' ≤ c && c ≤ 'F' then some (c.toNat - 55)
  else none

/-- Natural number denoted by a list of decimal digits. -/
def natOfDigits (ds : List Char) : Nat :=
  ds.foldl (fun acc c => 10 * acc + (c.toNat - 48)) 0

/-- A scalar `Char` from a code point, the replacement character when
the code point is not a Unicode scalar value (Python can keep lone
surrogates in a `str`; Lean cannot, and no claim in scope depends on
them). -/
def charFromCode (n : Nat) : Char :=
  if h : n < 55296 ∨ (57343 < n ∧ n < 1114112) then Char.ofNatAux n h
  else Char.ofNat 65533

/-- Parse the body of a JSON string after the opening quote, strict
mode: unescaped control characters below U+0020 are an error; the legal
escapes are the eight JSON ones plus `\uXXXX` with surrogate-pair
combination. -/
def pJString (fuel : Nat) (cs : List Char) (acc : List Char) :
    Except String (String × List Char) :=
  match fuel with
  | 0 => .error "fuel exhausted"
  | f + 1 =>
    match cs with
    | [] => .error "Unterminated string"
    | c :: rest =>
      if c = '"' then .ok (String.mk acc.reverse, rest)
      else if c = '\\' then
        match rest with
        | [] => .error "Unterminated string"
        | e :: r2 =>
          if e = '"' then pJString f r2 ('"' :: acc)
          else if e = '\\' then pJString f r2 ('\\' :: acc)
          else if e = '/' then pJString f r2 ('/' :: acc)
          else if e = 'b' then pJString f r2 (Char.ofNat 8 :: acc)
          else if e = 'f' then pJString f r2 (Char.ofNat 12 :: acc)
          else if e = 'n' then pJString f r2 (Char.ofNat 10 :: acc)
          else if e = 'r' then pJString f r2 (Char.ofNat 13 :: acc)
          else if e = 't' then pJString f r2 (Char.ofNat 9 :: acc)
          else if e = 'u' then
            match r2 with
            | h1 :: h2 :: h3 :: h4 :: r3 =>
              match hexVal h1, hexVal h2, hexVal h3, hexVal h4 with
              | some v1, some v2, some v3, some v4 =>
                let hi := ((v1 * 16 + v2) * 16 + v3) * 16 + v4
                if 55296 ≤ hi && hi ≤ 56319 then
                  match r3 with
                  | '\\' :: 'u' :: g1 :: g2 :: g3 :: g4 :: r4 =>
                    match hexVal g1, hexVal g2, hexVal g3, hexVal g4 with
                    | some w1, some w2, some w3, some w4 =>
                      let lo := ((w1 * 16 + w2) * 16 + w3) * 16 + w4
                      if 56320 ≤ lo && lo ≤ 57343 then
                        pJString f r4
                          (charFromCode (65536 + (hi - 55296) * 1024 + (lo - 56320)) :: acc)
                      else pJString f r3 (charFromCode hi :: acc)
                    | _, _, _, _ => pJString f r3 (charFromCode hi :: acc)
                  | _ => pJString f r3 (charFromCode hi :: acc)
                else pJString f r3 (charFromCode hi :: acc)
              | _, _, _, _ => .error "Invalid uXXXX escape"
            | _ => .error "Invalid uXXXX escape"
          else .error "Invalid escape"
      else if c.toNat < 32 then .error "Invalid control character"
      else pJString f rest (c :: acc)

/-- The rational denoted by a JSON number token, built with a single
normalizing `mkRat` so that concrete runs reduce definitionally. -/
def jNumVal (sign : Bool) (ip : Nat) (fracDigits : List Char) (expSign : Bool)
    (expDigits : List Char) : ℚ :=
  let k := fracDigits.length
  let e := natOfDigits expDigits
  let mantissa : Nat := (ip * 10 ^ k + natOfDigits fracDigits) * (if expSign then 1 else 10 ^ e)
  let den : Nat := 10 ^ k * (if expSign then 10 ^ e else 1)
  mkRat (if sign then -(mantissa : Int) else (mantissa : Int)) den

/-- Parse a JSON number token at the head of `cs` (grammar
`-?(0|[1-9][0-9]*)(.[0-9]+)?([eE][+-]?[0-9]+)?`); anything the token
does not consume is left in the remainder, as with Python's number
regex. -/
def pJNumber (cs : List Char) : Except String (Json × List Char) :=
  let (sign, cs1) :=
    match cs with
    | '-' :: r => (true, r)
    | _ => (false, cs)
  match cs1 with
  | [] => .error "Expecting value"
  | d :: rest =>
    if !d.isDigit then .error "Expecting value"
    else
      let (ipDigits, cs2) :=
        if d = '0' then ([d], rest) else cs1.span (fun c : Char => c.isDigit)
      let ip := natOfDigits ipDigits
      let (fracDigits, cs3) :=
        match cs2 with
        | '.' :: r =>
          let p := r.span (fun c : Char => c.isDigit)
          if p.1.isEmpty then ([], cs2) else (p.1, p.2)
        | _ => ([], cs2)
      let (expSign, expDigits, cs4) :=
        match cs3 with
        | 'e' :: r | 'E' :: r =>
          let (es, r2) :=
            match r with
            | '-' :: r2 => (true, r2)
            | '+' :: r2 => (false, r2)
            | _ => (false, r)
          let p := r2.span (fun c : Char => c.isDigit)
          if p.1.isEmpty then (false, [], cs3) else (es, p.1, p.2)
        | _ => (false, [], cs3)
      .ok (Json.num (jNumVal sign ip fracDigits expSign expDigits), cs4)

mutual

/-- Parse one JSON value (leading JSON whitespace allowed). -/
def pJValue (fuel : Nat) (cs : List Char) : Except String (Json × List Char) :=
  match fuel with
  | 0 => .error "fuel exhausted"
  | f + 1 =>
    let cs := cs.dropWhile jsonWs
    match cs with
    | [] => .error "Expecting value"
    | c :: rest =>
      if c = lbrace then
        let r2 := rest.dropWhile jsonWs
        match r2 with
        | x :: r3 =>
          if x = rbrace then .ok (Json.obj [], r3) else pJMembers f r2 []
        | [] => .error "Expecting property name"
      else if c = '[' then
        let r2 := rest.dropWhile jsonWs
        match r2 with
        | ']' :: r3 => .ok (Json.arr [], r3)
        | _ => pJItems f r2 []
      else if c = '"' then
        match pJString f rest [] with
        | .error e => .error e
        | .ok (s, r2) => .ok (Json.str s, r2)
      else if c = 't' then
        if ("true".toList).isPrefixOf cs then .ok (Json.bool true, cs.drop 4)
        else .error "Expecting value"
      else if c = 'f' then
        if ("false".toList).isPrefixOf cs then .ok (Json.bool false, cs.drop 5)
        else .error "Expecting value"
      else if c = 'n' then
        if ("null".toList).isPrefixOf cs then .ok (Json.null, cs.drop 4)
        else .error "Expecting value"
      else if c = '-' || c.isDigit then pJNumber cs
      else .error "Expecting value"

/-- Parse the members of an object after the opening brace (at least
one member present). -/
def pJMembers (fuel : Nat) (cs : List Char) (acc : List (String × Json)) :
    Except String (Json × List Char) :=
  match fuel with
  | 0 => .error "fuel exhausted"
  | f + 1 =>
    match cs with
    | '"' :: r =>
      match pJString f r [] with
      | .error e => .error e
      | .ok (k, r2) =>
        match r2.dropWhile jsonWs with
        | ':' :: r4 =>
          match pJValue f r4 with
          | .error e => .error e
          | .ok (v, r5) =>
            match r5.dropWhile jsonWs with
            | x :: r7 =>
              if x = ',' then pJMembers f (r7.dropWhile jsonWs) ((k, v) :: acc)
              else if x = rbrace then .ok (Json.obj ((k, v) :: acc).reverse, r7)
              else .error "Expecting delimiter"
            | [] => .error "Expecting delimiter"
        | _ => .error "Expecting colon delimiter"
    | _ => .error "Expecting property name enclosed in double quotes"

/-- Parse the items of an array after the opening bracket (at least one
item present). -/
def pJItems (fuel : Nat) (cs : List Char) (acc : List Json) :
    Except String (Json × List Char) :=
  match fuel with
  | 0 => .error "fuel exhausted"
  | f + 1 =>
    match pJValue f cs with
    | .error e => .error e
    | .ok (v, r) =>
      match r.dropWhile jsonWs with
      | ',' :: r2 => pJItems f r2 (v :: acc)
      | ']' :: r2 => .ok (Json.arr (v :: acc).reverse, r2)
      | _ => .error "Expecting delimiter"

end

/-- Python `json.loads`: parse one document, allow surrounding JSON
whitespace, reject trailing data. -/
def pythonJsonLoads (s : String) : Except String Json :=
  let cs := s.toList
  match pJValue (3 * cs.length + 16) cs with
  | .error e => .error e
  | .ok (v, rest) =>
    if (rest.dropWhile jsonWs).isEmpty then .ok v else .error "Extra data"

/-! ## `encode('utf-8').decode('unicode_escape')`

`critique_node` (both variants) passes the candidate through this
round-trip before stripping control characters and parsing.  It is
modelled at byte level: the string is UTF-8 encoded, then decoded with
Python's `unicode_escape` codec, which interprets backslash escape
sequences and reads every other byte as Latin-1.  Named escapes
(backslash-N) are not modelled (treated as an unknown escape); no input
in scope uses them. -/

/-- UTF-8 encoding of one scalar value. -/
def utf8Enc (c : Char) : List Nat :=
  let n := c.toNat
  if n < 128 then [n]
  else if n < 2048 then [192 + n / 64, 128 + n % 64]
  else if n < 65536 then [224 + n / 4096, 128 + n / 64 % 64, 128 + n % 64]
  else [240 + n / 262144, 128 + n / 4096 % 64, 128 + n / 64 % 64, 128 + n % 64]

/-- UTF-8 encoding of a string, as a list of byte values. -/
def utf8Bytes (s : String) : List Nat :=
  (s.toList.map utf8Enc).flatten

/-- Octal digit value. -/
def octVal (b : Nat) : Option Nat :=
  if 48 ≤ b && b ≤ 55 then some (b - 48) else none

/-- Hexadecimal value of a byte interpreted as an ASCII character. -/
def hexValB (b : Nat) : Option Nat :=
  if 48 ≤ b && b ≤ 57 then some (b - 48)
  else if 97 ≤ b && b ≤ 102 then some (b - 87)
  else if 65 ≤ b && b ≤ 70 then some (b - 55)
  else none

/-- Read exactly `n` hexadecimal bytes. -/
def readHexBytes : Nat → List Nat → Option (Nat × List Nat)
  | 0, bs => some (0, bs)
  | n + 1, b :: bs =>
    match hexValB b, readHexBytes n bs with
    | some v, some (acc, rest) => some (v * 16 ^ n + acc, rest)
    | _, _ => none
  | _ + 1, [] => none

/-- One step of `unicode_escape` decoding, fuelled by the remaining
byte count. -/
def uEscDecode (fuel : Nat) (bs : List Nat) (acc : List Char) :
    Except String (List Char) :=
  match fuel with
  | 0 => .error "fuel exhausted"
  | f + 1 =>
    match bs with
    | [] => .ok acc.reverse
    | 92 :: rest =>
      match rest with
      | [] => .error "backslash at end of string"
      | e :: r2 =>
        if e = 110 then uEscDecode f r2 (Char.ofNat 10 :: acc)
        else if e = 116 then uEscDecode f r2 (Char.ofNat 9 :: acc)
        else if e = 114 then uEscDecode f r2 (Char.ofNat 13 :: acc)
        else if e = 98 then uEscDecode f r2 (Char.ofNat 8 :: acc)
        else if e = 102 then uEscDecode f r2 (Char.ofNat 12 :: acc)
        else if e = 118 then uEscDecode f r2 (Char.ofNat 11 :: acc)
        else if e = 97 then uEscDecode f r2 (Char.ofNat 7 :: acc)
        else if e = 92 then uEscDecode f r2 (Char.ofNat 92 :: acc)
        else if e = 39 then uEscDecode f r2 (Char.ofNat 39 :: acc)
        else if e = 34 then uEscDecode f r2 (Char.ofNat 34 :: acc)
        else if e = 10 then uEscDecode f r2 acc
        else if (octVal e).isSome then
          match r2 with
          | d2 :: d3 :: r3 =>
            match octVal d2, octVal d3 with
            | some v2, some v3 =>
              uEscDecode f r3 (charFromCode (((e - 48) * 8 + v2) * 8 + v3) :: acc)
            | some v2, none => uEscDecode f (d3 :: r3) (charFromCode ((e - 48) * 8 + v2) :: acc)
            | none, _ => uEscDecode f (d2 :: d3 :: r3) (charFromCode (e - 48) :: acc)
          | [d2] =>
            match octVal d2 with
            | some v2 => uEscDecode f [] (charFromCode ((e - 48) * 8 + v2) :: acc)
            | none => uEscDecode f [d2] (charFromCode (e - 48) :: acc)
          | [] => uEscDecode f [] (charFromCode (e - 48) :: acc)
        else if e = 120 then
          match readHexBytes 2 r2 with
          | some (v, r3) => uEscDecode f r3 (charFromCode v :: acc)
          | none => .error "truncated xXX escape"
        else if e = 117 then
          match readHexBytes 4 r2 with
          | some (v, r3) => uEscDecode f r3 (charFromCode v :: acc)
          | none => .error "truncated uXXXX escape"
        else if e = 85 then
          match readHexBytes 8 r2 with
          | some (v, r3) =>
            if v < 1114112 then uEscDecode f r3 (charFromCode v :: acc)
            else .error "illegal Unicode character"
          | none => .error "truncated UXXXXXXXX escape"
        else uEscDecode f r2 (Char.ofNat e :: Char.ofNat 92 :: acc)
    | b :: rest => uEscDecode f rest (Char.ofNat b :: acc)

/-- The full `encode('utf-8').decode('unicode_escape')` round-trip. -/
def unicodeEscapeRoundTrip (s : String) : Except String String :=
  let bs := utf8Bytes s
  (uEscDecode (bs.length + 1) bs []).map String.mk

/-! ## Parse pipelines per stage

Helper views of the per-stage candidate handling, used to state
hypotheses such as "the response is syntactically invalid at this
stage".  `plan_node`, `knowledge_retrieval_node` and
`SemanticChunker.extract_chunk` parse the raw candidate;
`answer_node` strips control characters first; `critique_node`
additionally applies the `unicode_escape` round-trip before
stripping. -/

/-- Successful extraction-plus-parse as performed by `plan_node`,
`knowledge_retrieval_node` and `extract_chunk` (no control-character
stripping). -/
def rawParsedJson (s : String) : Option Json :=
  (stageCandidate s).bind (fun c => (pythonJsonLoads c).toOption)

/-- Successful extraction-plus-parse as performed by `answer_node`
(control characters stripped from the candidate first). -/
def strippedParsedJson (s : String) : Option Json :=
  (stageCandidate s).bind (fun c => (pythonJsonLoads (stripCtrl c)).toOption)

/-- Successful extraction-plus-parse as performed by `critique_node`
(`unicode_escape` round-trip, then control-character stripping). -/
def critiqueParsedJson (s : String) : Option Json :=
  (stageCandidate s).bind (fun c =>
    match unicodeEscapeRoundTrip c with
    | .error _ => none
    | .ok u => (pythonJsonLoads (stripCtrl u)).toOption)

/-! ## The agent workflow (`student_rag.py`)

The generation gateway is abstracted to the four raw response strings
it returns during one run (one per graph node); the prompts sent to it
do not influence any claim.  The retrieval adapter
(`file_processor.vector_search`) is abstracted to a total function from
a query value and the studied-document list to a passage string. -/

/-- `AgentState` of `student_rag.py`.  Fields that receive values from
parsed JSON are dynamically typed in Python and therefore modelled as
`Json`.  `key_phrases` is absent from the initial state dict and only
written by the retrieve node, hence an `Option`. -/
structure AgentState where
  question : String
  studied : List String
  get_knowledge : Json
  key_phrases : Option Json
  content : Json
  final_answer : Json
  justification : Json
  confidence_score : Json
  comment : Json

/-- `Question` (pydantic model, accessed like a mapping by
`begin_answer`). -/
structure Question where
  qn_id : String
  qn_week : Int
  qn_stem : String
  qn_options : String
  correct_option : String

/-- `AgentDB` (the agent record). -/
structure AgentDB where
  id : String
  name : String
  studied : List String

/-- The value `plan_node` stores into `get_knowledge`: the parsed
object's `get_knowledge` entry with default empty list; on any failure
(no candidate — the `.group(1)` call on `None` raises; `json.loads`
error; or `.get` on a non-dict raising `AttributeError`) the `except`
branch stores the empty list. -/
def planQueriesOf (resp : String) : Json :=
  match rawParsedJson resp with
  | some (Json.obj kvs) => objGetD kvs "get_knowledge" (Json.arr [])
  | _ => Json.arr []

/-- `plan_node`: only mutates `get_knowledge`. -/
def plan_node (resp : String) (st : AgentState) : AgentState :=
  { st with get_knowledge := planQueriesOf resp }

/-- The three values `answer_node` stores (`final_answer`,
`confidence_score`, `justification`).  The `JSONDecodeError` branch and
the general `except` branch substitute distinct sentinels; a successful
parse substitutes per-key defaults via `.get`. -/
structure AnswerOut where
  final_answer : Json
  confidence_score : Json
  justification : Json

/-- `answer_node`'s parse-and-extract logic, shared verbatim between
`student_rag.py` (lines 213-272) and `student_systemprompt.py`
(lines 82-141). -/
def answerStage (resp : String) : AnswerOut :=
  match stageCandidate resp with
  | none =>
    { final_answer := Json.arr [Json.str "Error in answer_node"],
      confidence_score := Json.num 0,
      justification := Json.str "Processing failed: No JSON found in response" }
  | some c =>
    match pythonJsonLoads (stripCtrl c) with
    | .error e =>
      { final_answer := Json.arr [Json.str "Error: Invalid JSON response"],
        confidence_score := Json.num 0,
        justification := Json.str ("JSON parsing failed: " ++ e) }
    | .ok (Json.obj kvs) =>
      { final_answer := objGetD kvs "final_answer" (Json.arr [Json.str "Unknown"]),
        confidence_score := objGetD kvs "confidence_score" (Json.num 0),
        justification := objGetD kvs "justification" (Json.str "No justification provided") }
    | .ok _ =>
      { final_answer := Json.arr [Json.str "Error in answer_node"],
        confidence_score := Json.num 0,
        justification := Json.str "Processing failed: AttributeError" }

/-- `answer_node`: stores the three extracted values. -/
def answer_node (resp : String) (st : AgentState) : AgentState :=
  { st with
    final_answer := (answerStage resp).final_answer,
    confidence_score := (answerStage resp).confidence_score,
    justification := (answerStage resp).justification }

/-- The comment `critique_node` stores: parsed `comment` entry, or the
fixed failure string on any failure along the pipeline. -/
def critiqueCommentOf (resp : String) : Json :=
  match stageCandidate resp with
  | none => Json.str "Failed to comment."
  | some c =>
    match unicodeEscapeRoundTrip c with
    | .error _ => Json.str "Failed to comment."
    | .ok u =>
      match pythonJsonLoads (stripCtrl u) with
      | .error _ => Json.str "Failed to comment."
      | .ok v =>
        match pyGetItemStr v "comment" with
        | .error _ => Json.str "Failed to comment."
        | .ok cj => cj

/-- `critique_node`: only mutates `comment`. -/
def critique_node (resp : String) (st : AgentState) : AgentState :=
  { st with comment := critiqueCommentOf resp }

/-- `knowledge_retrieval_node`.  Returns the updated state together
with the list of queries issued to the retrieval adapter (empty when
the adapter was never called).  On extraction/parse/`['key_phrases']`
failure the `except` branch stores the failure string into `content`;
`key_phrases` is written before the retrieval loop, so a failure while
iterating still leaves it set. -/
def knowledge_retrieval_node (resp : String)
    (vector_search : Json → List String → String) (st : AgentState) :
    AgentState × List Json :=
  match stageCandidate resp with
  | none => ({ st with content := Json.str "Failed to retrieve knowledge." }, [])
  | some c =>
    match pythonJsonLoads c with
    | .error _ => ({ st with content := Json.str "Failed to retrieve knowledge." }, [])
    | .ok v =>
      match pyGetItemStr v "key_phrases" with
      | .error _ => ({ st with content := Json.str "Failed to retrieve knowledge." }, [])
      | .ok kp =>
        match pyIterate kp with
        | .error _ =>
          ({ st with key_phrases := some kp,
                     content := Json.str "Failed to retrieve knowledge." }, [])
        | .ok phrases =>
          ({ st with key_phrases := some kp,
                     content := Json.arr (phrases.map (fun p =>
                       Json.str (vector_search p st.studied))) }, phrases)

/-- `rag_needed`: `len(state.get("get_knowledge", [])) > 0` decides the
conditional edge out of the planner; `len` of a non-sized value
raises. -/
def rag_needed (st : AgentState) : Except String String :=
  match pyLen st.get_knowledge with
  | .error e => .error e
  | .ok n => .ok (if n > 0 then "retriever" else "answer")

/-- The four raw gateway responses of one workflow run, one per node. -/
structure StageResponses where
  planResp : String
  retrieveResp : String
  answerResp : String
  critiqueResp : String

/-- The initial state built by `begin_answer`. -/
def initialState (q : Question) (a : AgentDB) : AgentState :=
  { question := q.qn_options, studied := a.studied,
    get_knowledge := Json.arr [], key_phrases := none,
    content := Json.str "", final_answer := Json.str "",
    justification := Json.str "", confidence_score := Json.num 0,
    comment := Json.str "" }

/-- One execution of the compiled graph
(`planner -> [retriever] -> answer -> critique`): returns the terminal
state, the sequence of executed nodes, and the log of retrieval-adapter
queries. -/
def runGraph (r : StageResponses) (vector_search : Json → List String → String)
    (q : Question) (a : AgentDB) :
    Except String (AgentState × List String × List Json) :=
  let st1 := plan_node r.planResp (initialState q a)
  match rag_needed st1 with
  | .error e => .error e
  | .ok nxt =>
    if nxt = "retriever" then
      let pr := knowledge_retrieval_node r.retrieveResp vector_search st1
      let st3 := answer_node r.answerResp pr.1
      let st4 := critique_node r.critiqueResp st3
      .ok (st4, ["planner", "retriever", "answer", "critique"], pr.2)
    else
      let st3 := answer_node r.answerResp st1
      let st4 := critique_node r.critiqueResp st3
      .ok (st4, ["planner", "answer", "critique"], [])

/-- The mapping returned by `begin_answer`. -/
structure RunResult where
  student_answer : Json
  confidence_score : Json
  justification : Json
  is_correct : Bool

/-- The tail of `begin_answer` after the graph run: log
`final_answer[0]` (string concatenation, so a non-string first element
raises `TypeError` and an unsubscriptable or empty `final_answer`
raises before that), compute `is_correct` as
`len(final_answer) == 1 and final_answer[0] == correct_option`, and
return the result mapping.  The CSV side effect writes the same fields
to an external sink and is not modelled. -/
def finish_run (st : AgentState) (q : Question) : Except String RunResult :=
  match pyIndex0 st.final_answer with
  | .error e => .error e
  | .ok (Json.str s0) =>
    match pyLen st.final_answer with
    | .error e => .error e
    | .ok n =>
      .ok { student_answer := st.final_answer,
            confidence_score := st.confidence_score,
            justification := st.justification,
            is_correct := decide (n = 1) && decide (s0 = q.correct_option) }
  | .ok _ => .error "TypeError: can only concatenate str to str"

/-- `begin_answer` of `student_rag.py`: one graph run, then the
reconciliation in `finish_run`. -/
def begin_answer (r : StageResponses)
    (vector_search : Json → List String → String) (q : Question)
    (a : AgentDB) : Except String RunResult :=
  match runGraph r vector_search q a with
  | .error e => .error e
  | .ok out => finish_run out.1 q

/-! ## The semantic chunker (`semantic_chunker.py`)

The generation gateway is abstracted to the plan-stage response (an
`Except`, since `ollama.chat` may raise — in `split_text` the call is
inside the outer `try`) and a grounding response per idea (also an
`Except`: in `extract_chunk` the call sits *outside* the local `try`,
so a raised error propagates to `split_text`'s `except`, which returns
the chunks accumulated so far). -/

/-- Match the pattern `Idea`, space, digits, colon, space at the head
of the character list, returning the rest of the line (the captured
group) on success. -/
def ideaMatchAt (cs : List Char) : Option (List Char) :=
  if ("Idea ".toList).isPrefixOf cs then
    let r := (cs.drop 5).span (fun c : Char => c.isDigit)
    if r.1.isEmpty then none
    else
      match r.2 with
      | ':' :: ' ' :: rest => some rest
      | _ => none
  else none

/-- Leftmost match of the idea pattern within one line. -/
def scanIdeaLine : List Char → Option (List Char)
  | [] => none
  | c :: rest =>
    match ideaMatchAt (c :: rest) with
    | some g => some g
    | none => scanIdeaLine rest

/-- Split on newline characters (the idea regex group is a `.`-group,
which stops at a newline). -/
def splitLines (cs : List Char) : List (List Char) :=
  match cs.splitOn (Char.ofNat 10) with
  | ls => ls

/-- The parse half of `write_chunking_plan`: `re.findall` of the
pattern `Idea`, digits, colon, space, captured rest-of-line, then
`str.strip()` of each captured group.  Successive non-overlapping
matches are one per line because the captured group extends to the end
of its line. -/
def write_chunking_plan (resp : String) : List String :=
  (splitLines resp.toList).filterMap (fun line =>
    (scanIdeaLine line).map (fun g => String.mk (stripPyWs g)))

/-- Python `" ".join(x)` on a value obtained from JSON: joins a list of
strings (`TypeError` if any element is not a string), the characters of
a string, or the (distinct) keys of a dict; `TypeError` otherwise. -/
def pyJoinSpace (v : Json) : Except String String :=
  match v with
  | Json.arr l =>
    match l.mapM (fun x => match x with | Json.str s => some s | _ => none) with
    | some ss => .ok (String.intercalate " " ss)
    | none => .error "TypeError: sequence item: expected str instance"
  | Json.str s => .ok (String.intercalate " " (s.toList.map (fun c => String.mk [c])))
  | Json.obj kvs => .ok (String.intercalate " " ((kvs.map (fun p => p.1)).eraseDups))
  | _ => .error "TypeError: can only join an iterable"

/-- The parse half of `SemanticChunker.extract_chunk`: extract the JSON
candidate (returning the empty string when none is found), parse it raw
(no control-character stripping), take `['related']`, join with single
spaces; every failure is caught and yields the empty string. -/
def extract_chunk (resp : String) : String :=
  match stageCandidate resp with
  | none => ""
  | some c =>
    match pythonJsonLoads c with
    | .error _ => ""
    | .ok v =>
      match pyGetItemStr v "related" with
      | .error _ => ""
      | .ok rel =>
        match pyJoinSpace rel with
        | .error _ => ""
        | .ok chunk => chunk

/-- The idea loop of `split_text`: per idea, call the grounding
gateway; a raised gateway error escapes to the outer `except`, which
returns the chunks accumulated so far; an empty chunk (grounding parse
failure or empty grounding list) skips the idea; otherwise append
`idea + ". " + chunk`. -/
def chunkLoop (ground : String → Except String String) :
    List String → List String → List String
  | [], acc => acc.reverse
  | idea :: rest, acc =>
    match ground idea with
    | .error _ => acc.reverse
    | .ok resp =>
      let c := extract_chunk resp
      if c = "" then chunkLoop ground rest acc
      else chunkLoop ground rest ((idea ++ ". " ++ c) :: acc)

/-- `SemanticChunker.split_text` (the repository's `chunk_document`
entry point): plan extraction, then one grounding extraction per idea;
the whole body is wrapped in `try`/`except`, so a gateway error at the
plan stage yields the empty list and a gateway error at idea `i`
yields the chunks accumulated before `i`; the function never raises. -/
def split_text (planR : Except String String)
    (ground : String → Except String String) : List String :=
  match planR with
  | .error _ => []
  | .ok resp => chunkLoop ground (write_chunking_plan resp) []

/-! ## Spec-side definition for the multi-span claim -/

/-- All brace-delimited spans of the text, ordered by start position
and then end position. -/
def braceSpans (cs : List Char) : List (List Char) :=
  ((List.range cs.length).map (fun i =>
    if cs.get? i = some lbrace then
      (List.range cs.length).filterMap (fun j =>
        if i ≤ j && cs.get? j == some rbrace then
          some ((cs.drop i).take (j - i + 1))
        else none)
    else [])).flatten

/-- First JSON value among a list of candidate spans. -/
def firstParsable : List (List Char) → Option Json
  | [] => none
  | c :: rest =>
    match pythonJsonLoads (String.mk c) with
    | .ok v => some v
    | .error _ => firstParsable rest

/-- Modelled from the spec (section 4.1, edge case): "if multiple
brace spans exist, the parser must pick the first that parses
successfully, not merely the first textually".  Used only to compare
the spec's prescription with the code's single greedy-span
extraction. -/
def specFirstParsableSpan (s : String) : Option Json :=
  firstParsable (braceSpans s.toList)

/-! ## Concrete fixtures used by witnesses and counterexamples -/

/-- A question whose correct option is `B`. -/
def sampleQuestion : Question :=
  { qn_id := "123", qn_week := 2, qn_stem := "stem",
    qn_options := "A. To collect data B. To analyze data", correct_option := "B" }

/-- An agent record. -/
def sampleAgent : AgentDB :=
  { id := "123", name := "StudentA", studied := ["Week2.pptx"] }

/-- A retrieval-adapter stub. -/
def stubSearch : Json → List String → String := fun _ _ => "passage"

/-- Gateway responses that are syntactically invalid at every stage. -/
def allInvalidR : StageResponses :=
  { planResp := "no json here", retrieveResp := "still no json",
    answerResp := "the model rambled with no structure",
    critiqueResp := "nothing structured either" }

/-- Gateway responses whose answer stage parses to a two-element
`final_answer` list. -/
def twoElemR : StageResponses :=
  { planResp := "no json here", retrieveResp := "still no json",
    answerResp := "\x7b\"final_answer\": [\"B\", \"C\"], \"confidence_score\": 0.5, \"justification\": \"j\"\x7d",
    critiqueResp := "nothing structured either" }

/-- Gateway responses whose answer stage reports a confidence score of
`2.5`. -/
def conf25R : StageResponses :=
  { planResp := "no json here", retrieveResp := "still no json",
    answerResp := "\x7b\"final_answer\": [\"A\"], \"confidence_score\": 2.5, \"justification\": \"x\"\x7d",
    critiqueResp := "nothing structured either" }

/-- Gateway responses with a non-empty plan query list. -/
def withQueriesR : StageResponses :=
  { planResp := "\x7b\"get_knowledge\": [\"q1\"]\x7d",
    retrieveResp := "\x7b\"key_phrases\": [\"kp\"]\x7d",
    answerResp := "\x7b\"final_answer\": [\"B\"], \"confidence_score\": 0.9, \"justification\": \"ok\"\x7d",
    critiqueResp := "\x7b\"comment\": \"fine\"\x7d" }

/-- A grounding response whose only JSON string value contains the
literal control character U+0001. -/
def ctrlGroundResp : String :=
  "\x7b\"related\": [\"a" ++ String.mk [Char.ofNat 1] ++ "b\"]\x7d"

/-- A plan response with a control character inside the JSON string. -/
def ctrlPlanResp : String :=
  "\x7b\"get_knowledge\": [\"a" ++ String.mk [Char.ofNat 1] ++ "b\"]\x7d"

/-- A response with two textual brace spans where only the inner
second span parses as JSON; the greedy first-to-last span does not. -/
def twoSpanResp : String := "pre \x7bbad\x7d mid \x7b\"a\": 1\x7d post"

/-- A plan response for the chunker naming two ideas. -/
def twoIdeaPlan : String := "Idea 1: A\nIdea 2: B"

/-- A grounding response with one supporting sentence `s`. -/
def okGroundResp : String := "\x7b\"related\": [\"s\"]\x7d"

/-- A grounding gateway that raises on idea `A` and answers idea `B`
with a well-formed grounding response. -/
def failAGround : String → Except String String := fun i =>
  if i = "A" then .error "service unavailable" else .ok okGroundResp

/-! ## Helper lemmas -/

/-- On a response that fails raw extraction-plus-parse, the plan stage
stores the empty query list. -/
theorem planQueriesOf_of_invalid (s : String) (h : rawParsedJson s = none) :
    planQueriesOf s = Json.arr [] := by
  unfold planQueriesOf
  rw [h]

/-- On a response that fails stripped extraction-plus-parse, the answer
stage stores one of the two single-element sentinel lists and
confidence zero. -/
theorem answerStage_of_invalid (s : String) (h : strippedParsedJson s = none) :
    ∃ m, (answerStage s).final_answer = Json.arr [Json.str m]
      ∧ (m = "Error: Invalid JSON response" ∨ m = "Error in answer_node")
      ∧ (answerStage s).confidence_score = Json.num 0 := by
  unfold strippedParsedJson at h
  unfold answerStage
  split
  · exact ⟨"Error in answer_node", rfl, Or.inr rfl, rfl⟩
  · rename_i c hc
    have h2 : (pythonJsonLoads (stripCtrl c)).toOption = none := by
      rw [hc] at h; exact h
    split
    · exact ⟨"Error: Invalid JSON response", rfl, Or.inl rfl, rfl⟩
    · rename_i kvs hl
      rw [hl] at h2
      exact Option.noConfusion h2
    · rename_i hne v hl
      rw [hl] at h2
      exact Option.noConfusion h2

/-- Case split on the answer stage: either a failure path stored
confidence zero and a sentinel answer, or a JSON object was parsed and
every stored field is the object's entry with its per-key default. -/
theorem answerStage_cases (s : String) :
    ((answerStage s).final_answer = Json.arr [Json.str "Error: Invalid JSON response"]
        ∨ (answerStage s).final_answer = Json.arr [Json.str "Error in answer_node"])
      ∧ (answerStage s).confidence_score = Json.num 0
  ∨ ∃ kvs, strippedParsedJson s = some (Json.obj kvs)
      ∧ (answerStage s).final_answer = objGetD kvs "final_answer" (Json.arr [Json.str "Unknown"])
      ∧ (answerStage s).confidence_score = objGetD kvs "confidence_score" (Json.num 0)
      ∧ (answerStage s).justification = objGetD kvs "justification" (Json.str "No justification provided") := by
  unfold answerStage
  split
  · exact Or.inl ⟨Or.inr rfl, rfl⟩
  · rename_i c hc
    split
    · exact Or.inl ⟨Or.inl rfl, rfl⟩
    · rename_i kvs hl
      refine Or.inr ⟨kvs, ?_, rfl, rfl, rfl⟩
      unfold strippedParsedJson
      rw [hc]
      show (pythonJsonLoads (stripCtrl c)).toOption = some (Json.obj kvs)
      rw [hl]
      rfl
    · exact Or.inl ⟨Or.inr rfl, rfl⟩

/-- When the plan stage stored the empty query list, the graph takes
the direct `planner -> answer -> critique` path and issues no
retrieval query. -/
theorem runGraph_skip (r : StageResponses) (vs : Json → List String → String)
    (q : Question) (a : AgentDB) (h : planQueriesOf r.planResp = Json.arr []) :
    runGraph r vs q a =
      .ok (critique_node r.critiqueResp (answer_node r.answerResp
             (plan_node r.planResp (initialState q a))),
           ["planner", "answer", "critique"], []) := by
  unfold runGraph rag_needed plan_node
  rw [h]
  rfl

/-- When the plan stage stored a non-empty query list, the graph takes
the `planner -> retriever -> answer -> critique` path. -/
theorem runGraph_retrieve (r : StageResponses) (vs : Json → List String → String)
    (q : Question) (a : AgentDB) (x : Json) (xs : List Json)
    (h : planQueriesOf r.planResp = Json.arr (x :: xs)) :
    ∃ st log, runGraph r vs q a =
      .ok (st, ["planner", "retriever", "answer", "critique"], log) := by
  unfold runGraph rag_needed plan_node
  rw [h]
  simp only [pyLen, List.length_cons]
  rw [if_pos (by omega : xs.length + 1 > 0)]
  simp only [if_pos rfl]
  exact ⟨_, _, rfl⟩

/-- In any terminated graph run, the three answer fields of the
terminal state are exactly the answer stage's output (the critique node
only writes `comment`). -/
theorem runGraph_answer_fields (r : StageResponses)
    (vs : Json → List String → String) (q : Question) (a : AgentDB)
    (st : AgentState) (tr : List String) (lg : List Json)
    (h : runGraph r vs q a = .ok (st, tr, lg)) :
    st.final_answer = (answerStage r.answerResp).final_answer
      ∧ st.confidence_score = (answerStage r.answerResp).confidence_score
      ∧ st.justification = (answerStage r.answerResp).justification := by
  simp only [runGraph] at h
  split at h
  · exact absurd h (by simp)
  · split at h <;>
    · simp only [Except.ok.injEq, Prod.mk.injEq] at h
      obtain ⟨h1, h2, h3⟩ := h
      subst h1
      exact ⟨rfl, rfl, rfl⟩

/-- Inversion of `begin_answer`: a successful run exposes the terminal
state, and the result fields are the state's fields with `is_correct`
the length-one-and-equal test. -/
theorem begin_answer_inv (r : StageResponses)
    (vs : Json → List String → String) (q : Question) (a : AgentDB)
    (res : RunResult) (h : begin_answer r vs q a = .ok res) :
    ∃ st tr lg s0 n, runGraph r vs q a = .ok (st, tr, lg)
      ∧ pyIndex0 st.final_answer = .ok (Json.str s0)
      ∧ pyLen st.final_answer = .ok n
      ∧ res.student_answer = st.final_answer
      ∧ res.confidence_score = st.confidence_score
      ∧ res.justification = st.justification
      ∧ res.is_correct = (decide (n = 1) && decide (s0 = q.correct_option)) := by
  unfold begin_answer at h
  split at h
  · exact absurd h (by simp)
  · rename_i out hg
    obtain ⟨st2, tr2, lg2⟩ := out
    have h2 : finish_run st2 q = .ok res := h
    unfold finish_run at h2
    split at h2
    · exact absurd h2 (by simp)
    · rename_i s0 hi
      split at h2
      · exact absurd h2 (by simp)
      · rename_i n hl
        simp only [Except.ok.injEq] at h2
        refine ⟨st2, tr2, lg2, s0, n, hg, hi, hl, ?_, ?_, ?_, ?_⟩ <;>
          rw [← h2]
    · exact absurd h2 (by simp)

/-- `begin_answer` reduces to `finish_run` on the graph's terminal
state. -/
theorem begin_answer_eq_finish (r : StageResponses)
    (vs : Json → List String → String) (q : Question) (a : AgentDB)
    (st : AgentState) (tr : List String) (lg : List Json)
    (hg : runGraph r vs q a = .ok (st, tr, lg)) :
    begin_answer r vs q a = finish_run st q := by
  unfold begin_answer
  rw [hg]

/-- `finish_run` on a state whose `final_answer` is a one-element list
holding a string. -/
theorem finish_run_single (st : AgentState) (q : Question) (m : String)
    (hm : st.final_answer = Json.arr [Json.str m]) :
    finish_run st q =
      .ok { student_answer := st.final_answer,
            confidence_score := st.confidence_score,
            justification := st.justification,
            is_correct := decide (m = q.correct_option) } := by
  unfold finish_run
  rw [hm]
  rfl

/-- `dict.get` returns the default exactly when the key is absent. -/
theorem objGetD_of_none (kvs : List (String × Json)) (k : String) (d : Json)
    (h : objLookup kvs k = none) : objGetD kvs k d = d := by
  unfold objGetD
  rw [h]
  rfl

/-- When the stripped candidate parses to a JSON object, the answer
stage stores exactly the per-key `.get` extractions. -/
theorem answerStage_of_obj (s : String) (kvs : List (String × Json))
    (h : strippedParsedJson s = some (Json.obj kvs)) :
    answerStage s =
      { final_answer := objGetD kvs "final_answer" (Json.arr [Json.str "Unknown"]),
        confidence_score := objGetD kvs "confidence_score" (Json.num 0),
        justification := objGetD kvs "justification" (Json.str "No justification provided") } := by
  unfold strippedParsedJson at h
  unfold answerStage
  split
  · rename_i hc
    rw [hc] at h
    exact Option.noConfusion h
  · rename_i c hc
    have h2 : (pythonJsonLoads (stripCtrl c)).toOption = some (Json.obj kvs) := by
      rw [hc] at h; exact h
    split
    · rename_i e hl
      rw [hl] at h2
      exact Option.noConfusion h2
    · rename_i kvs2 hl
      rw [hl] at h2
      have h3 : Json.obj kvs2 = Json.obj kvs := Option.some.inj h2
      rw [Json.obj.injEq] at h3
      rw [h3]
    · rename_i v hno heq
      rw [heq] at h2
      exact (hno kvs (Option.some.inj h2)).elim

/-- The idea loop of `split_text` on a grounding gateway that never
raises: the output is exactly the per-idea chunks of the ideas whose
grounding produced a non-empty chunk, in order, appended to the
accumulator. -/
theorem chunkLoop_ok (ground : String → Except String String)
    (ideas : List String) (acc : List String)
    (hok : ∀ i ∈ ideas, ∃ t, ground i = .ok t) :
    chunkLoop ground ideas acc =
      acc.reverse ++ ideas.filterMap (fun i =>
        match ground i with
        | .ok t => if extract_chunk t = "" then none
                   else some (i ++ ". " ++ extract_chunk t)
        | .error _ => none) := by
  induction ideas generalizing acc with
  | nil => simp [chunkLoop]
  | cons i rest ih =>
    obtain ⟨t, ht⟩ := hok i (by simp)
    have hok2 : ∀ j ∈ rest, ∃ t2, ground j = .ok t2 := by
      intro j hj
      exact hok j (List.mem_cons_of_mem i hj)
    simp only [chunkLoop, ht, List.filterMap_cons]
    by_cases hc : extract_chunk t = ""
    · rw [if_pos hc, if_pos hc, ih _ hok2]
    · rw [if_neg hc, if_neg hc, ih _ hok2]
      simp [List.append_assoc]

/-- The idea loop of `split_text` when the grounding gateway raises at
idea `i`, having succeeded on every earlier idea: the loop stops at
`i`, returning the accumulator plus the chunks of the successful
prefix; `i` and every later idea are dropped. -/
theorem chunkLoop_error_prefix (ground : String → Except String String)
    (pre : List String) (i : String) (post : List String) (er : String)
    (acc : List String)
    (hok : ∀ j ∈ pre, ∃ t, ground j = .ok t) (hi : ground i = .error er) :
    chunkLoop ground (pre ++ i :: post) acc =
      acc.reverse ++ pre.filterMap (fun j =>
        match ground j with
        | .ok t => if extract_chunk t = "" then none
                   else some (j ++ ". " ++ extract_chunk t)
        | .error _ => none) := by
  induction pre generalizing acc with
  | nil =>
    simp only [List.nil_append, chunkLoop, hi, List.filterMap_nil, List.append_nil]
  | cons j rest ih =>
    obtain ⟨t, ht⟩ := hok j (by simp)
    have hok2 : ∀ j2 ∈ rest, ∃ t2, ground j2 = .ok t2 := by
      intro j2 hj2
      exact hok j2 (List.mem_cons_of_mem j hj2)
    simp only [List.cons_append, chunkLoop, ht, List.filterMap_cons, List.append_eq]
    by_cases hc : extract_chunk t = ""
    · rw [if_pos hc, if_pos hc, ih _ hok2]
    · rw [if_neg hc, if_neg hc, ih _ hok2]
      simp [List.append_assoc]

/-! ## Claims -/

/-- C1: for every question and agent record, if the generation service
returns syntactically invalid text at every stage, `run_question`
(`begin_answer`) still terminates normally and returns a result whose
`final_answer` is a single-element list containing a sentinel string
and whose `confidence_score` equals 0.0; the run never raises to its
caller. -/
theorem c1_run_completes_on_invalid_generation (r : StageResponses)
    (vs : Json → List String → String) (q : Question) (a : AgentDB)
    (hp : rawParsedJson r.planResp = none)
    (hr : rawParsedJson r.retrieveResp = none)
    (ha : strippedParsedJson r.answerResp = none)
    (hc : critiqueParsedJson r.critiqueResp = none) :
    ∃ m res, begin_answer r vs q a = .ok res
      ∧ res.student_answer = Json.arr [Json.str m]
      ∧ (m = "Error: Invalid JSON response" ∨ m = "Error in answer_node")
      ∧ res.confidence_score = Json.num 0 := by
  obtain ⟨m, hfa, hm, hconf⟩ := answerStage_of_invalid r.answerResp ha
  have hskip := runGraph_skip r vs q a (planQueriesOf_of_invalid _ hp)
  exact ⟨m, _,
    (begin_answer_eq_finish r vs q a _ _ _ hskip).trans
      (finish_run_single _ q m hfa),
    hfa, hm, hconf⟩

/-- Witness for C1 at a gateway stub whose text is invalid at every
stage. -/
theorem c1_witness :
    ∃ m res, begin_answer allInvalidR stubSearch sampleQuestion sampleAgent = .ok res
      ∧ res.student_answer = Json.arr [Json.str m]
      ∧ (m = "Error: Invalid JSON response" ∨ m = "Error in answer_node")
      ∧ res.confidence_score = Json.num 0 :=
  c1_run_completes_on_invalid_generation allInvalidR stubSearch sampleQuestion
    sampleAgent rfl rfl rfl rfl

/-- C2 counterexample: a terminated run with
`final_answer = ["B", "C"]` and `correct_option = "B"`:
`final_answer[0] == correct_option` holds, yet `is_correct` is `False`
(because of the length-one conjunct in the code), so the claimed
equivalence fails as stated. -/
theorem c2_counterexample :
    begin_answer twoElemR stubSearch sampleQuestion sampleAgent =
      .ok { student_answer := Json.arr [Json.str "B", Json.str "C"],
            confidence_score := Json.num (mkRat 1 2),
            justification := Json.str "j",
            is_correct := false }
    ∧ pyIndex0 (Json.arr [Json.str "B", Json.str "C"]) =
        .ok (Json.str sampleQuestion.correct_option) :=
  ⟨rfl, rfl⟩

/-- C2 (amended): for every terminated run, `is_correct` is `True` if
and only if `final_answer` has exactly one element *and*
`final_answer[0]` equals `correct_option` (case-sensitive exact string
comparison). -/
theorem c2_is_correct_amended (r : StageResponses)
    (vs : Json → List String → String) (q : Question) (a : AgentDB)
    (res : RunResult) (h : begin_answer r vs q a = .ok res) :
    res.is_correct = true ↔
      (pyLen res.student_answer = .ok 1
        ∧ pyIndex0 res.student_answer = .ok (Json.str q.correct_option)) := by
  obtain ⟨st, tr, lg, s0, n, hg, hi, hl, h1, h2, h3, h4⟩ :=
    begin_answer_inv r vs q a res h
  rw [h1, h4, hi, hl]
  simp [Bool.and_eq_true, decide_eq_true_eq]

/-- The result record of the run driven by `withQueriesR`. -/
def answerBResult : RunResult :=
  { student_answer := Json.arr [Json.str "B"],
    confidence_score := Json.num (mkRat 9 10),
    justification := Json.str "ok",
    is_correct := true }

/-- Witness for the amended C2 at a run whose answer parses to `["B"]`
with `correct_option = "B"`. -/
theorem c2_amended_witness :
    begin_answer withQueriesR stubSearch sampleQuestion sampleAgent = .ok answerBResult
    ∧ (answerBResult.is_correct = true ↔
        (pyLen answerBResult.student_answer = .ok 1
          ∧ pyIndex0 answerBResult.student_answer =
              .ok (Json.str sampleQuestion.correct_option))) :=
  ⟨rfl, c2_is_correct_amended withQueriesR stubSearch sampleQuestion sampleAgent
    answerBResult rfl⟩

/-- C3: if the plan stage's parsed query list is empty the workflow
transitions directly from plan to answer and the retrieval adapter is
never called during that run (the query log is empty); if the parsed
query list is non-empty the workflow transitions from plan to
retrieve. -/
theorem c3_plan_transition (r : StageResponses)
    (vs : Json → List String → String) (q : Question) (a : AgentDB) :
    (planQueriesOf r.planResp = Json.arr [] →
      runGraph r vs q a =
        .ok (critique_node r.critiqueResp (answer_node r.answerResp
               (plan_node r.planResp (initialState q a))),
             ["planner", "answer", "critique"], ([] : List Json)))
  ∧ (∀ x xs, planQueriesOf r.planResp = Json.arr (x :: xs) →
      ∃ st log, runGraph r vs q a =
        .ok (st, ["planner", "retriever", "answer", "critique"], log)) :=
  ⟨fun h => runGraph_skip r vs q a h,
   fun x xs h => runGraph_retrieve r vs q a x xs h⟩

/-- Witness for C3: one run with an empty parsed query list (trace
skips the retriever, empty query log) and one with a non-empty list
(trace passes through the retriever). -/
theorem c3_witness :
    (∃ st, runGraph allInvalidR stubSearch sampleQuestion sampleAgent =
        .ok (st, ["planner", "answer", "critique"], ([] : List Json)))
  ∧ (∃ st log, runGraph withQueriesR stubSearch sampleQuestion sampleAgent =
      .ok (st, ["planner", "retriever", "answer", "critique"], log)) :=
  ⟨⟨_, (c3_plan_transition allInvalidR stubSearch sampleQuestion sampleAgent).1 rfl⟩,
   (c3_plan_transition withQueriesR stubSearch sampleQuestion sampleAgent).2
     (Json.str "q1") [] rfl⟩

/-- C4 counterexample: a terminated run whose `final_answer` has two
elements — the answer stage passes a successfully parsed list through
unchanged, so the one-element invariant fails. -/
theorem c4_counterexample :
    begin_answer twoElemR stubSearch sampleQuestion sampleAgent =
      .ok { student_answer := Json.arr [Json.str "B", Json.str "C"],
            confidence_score := Json.num (mkRat 1 2),
            justification := Json.str "j",
            is_correct := false }
    ∧ pyLen (Json.arr [Json.str "B", Json.str "C"]) = .ok 2 :=
  ⟨rfl, rfl⟩

/-- C4 (amended): in every terminated run the terminal `final_answer`
is the answer stage's output, which is a fixed single-element sentinel
list whenever the answer response failed to extract or parse, and is
exactly the parsed object's `final_answer` entry (default the
single-element `["Unknown"]`) on a successful parse — that entry is
not validated to have exactly one element. -/
theorem c4_final_answer_amended (r : StageResponses)
    (vs : Json → List String → String) (q : Question) (a : AgentDB)
    (st : AgentState) (tr : List String) (lg : List Json)
    (h : runGraph r vs q a = .ok (st, tr, lg)) :
    st.final_answer = (answerStage r.answerResp).final_answer
  ∧ ((answerStage r.answerResp).final_answer =
        Json.arr [Json.str "Error: Invalid JSON response"]
     ∨ (answerStage r.answerResp).final_answer =
        Json.arr [Json.str "Error in answer_node"]
     ∨ ∃ kvs, strippedParsedJson r.answerResp = some (Json.obj kvs)
         ∧ (answerStage r.answerResp).final_answer =
             objGetD kvs "final_answer" (Json.arr [Json.str "Unknown"])) := by
  refine ⟨(runGraph_answer_fields r vs q a st tr lg h).1, ?_⟩
  rcases answerStage_cases r.answerResp with ⟨hfa | hfa, _⟩ | ⟨kvs, hpj, hfa, _, _⟩
  · exact Or.inl hfa
  · exact Or.inr (Or.inl hfa)
  · exact Or.inr (Or.inr ⟨kvs, hpj, hfa⟩)

/-- The terminal state of the run driven by `twoElemR` (plan invalid,
retrieval skipped, answer parsed to a two-element list, critique
invalid). -/
def twoElemFinalState : AgentState :=
  { question := "A. To collect data B. To analyze data",
    studied := ["Week2.pptx"],
    get_knowledge := Json.arr [], key_phrases := none,
    content := Json.str "",
    final_answer := Json.arr [Json.str "B", Json.str "C"],
    justification := Json.str "j",
    confidence_score := Json.num (mkRat 1 2),
    comment := Json.str "Failed to comment." }

/-- Witness for the amended C4 at the two-element run. -/
theorem c4_amended_witness :
    twoElemFinalState.final_answer = (answerStage twoElemR.answerResp).final_answer
  ∧ ((answerStage twoElemR.answerResp).final_answer =
        Json.arr [Json.str "Error: Invalid JSON response"]
     ∨ (answerStage twoElemR.answerResp).final_answer =
        Json.arr [Json.str "Error in answer_node"]
     ∨ ∃ kvs, strippedParsedJson twoElemR.answerResp = some (Json.obj kvs)
         ∧ (answerStage twoElemR.answerResp).final_answer =
             objGetD kvs "final_answer" (Json.arr [Json.str "Unknown"])) :=
  c4_final_answer_amended twoElemR stubSearch sampleQuestion sampleAgent
    twoElemFinalState ["planner", "answer", "critique"] [] rfl

/-- C5 counterexample: a response with no fenced block and two textual
brace spans, of which only the second inner span parses.  The spec's
first-successfully-parsing-span extraction yields that object, but the
code's single greedy span (first opening brace to last closing brace)
fails to parse, so the stage's extraction fails. -/
theorem c5_counterexample :
    fencedCandidate twoSpanResp = none
    ∧ braceCandidate twoSpanResp = some "\x7bbad\x7d mid \x7b\"a\": 1\x7d"
    ∧ strippedParsedJson twoSpanResp = none
    ∧ rawParsedJson twoSpanResp = none
    ∧ specFirstParsableSpan twoSpanResp = some (Json.obj [("a", Json.num 1)]) :=
  ⟨rfl, rfl, rfl, rfl, rfl⟩

/-- C5 (amended): when no fenced block is present the extraction
parses exactly one candidate — the greedy span from the first opening
brace to the last closing brace — and fails when that span does not
parse; it does not search for the first successfully-parsing span. -/
theorem c5_single_span_amended (s : String) (h : fencedCandidate s = none) :
    (∀ c, braceCandidate s = some c →
        strippedParsedJson s = (pythonJsonLoads (stripCtrl c)).toOption)
  ∧ (braceCandidate s = none → strippedParsedJson s = none) := by
  constructor
  · intro c hc
    unfold strippedParsedJson stageCandidate
    rw [h, hc]
    rfl
  · intro hc
    unfold strippedParsedJson stageCandidate
    rw [h, hc]
    rfl

/-- Witness for the amended C5 at the two-span response. -/
theorem c5_amended_witness :
    strippedParsedJson twoSpanResp =
      (pythonJsonLoads (stripCtrl "\x7bbad\x7d mid \x7b\"a\": 1\x7d")).toOption :=
  (c5_single_span_amended twoSpanResp rfl).1 "\x7bbad\x7d mid \x7b\"a\": 1\x7d" rfl

/-- C6 counterexample: a grounding response and a plan response whose
only JSON string value contains a literal control character.  Stripping
control characters first would let the candidate parse, but the
chunker's grounding extraction and the plan stage parse the raw
candidate and fail (idea dropped, empty query list). -/
theorem c6_counterexample :
    extract_chunk ctrlGroundResp = ""
    ∧ pythonJsonLoads (stripCtrl ctrlGroundResp) =
        .ok (Json.obj [("related", Json.arr [Json.str "ab"])])
    ∧ planQueriesOf ctrlPlanResp = Json.arr []
    ∧ pythonJsonLoads (stripCtrl ctrlPlanResp) =
        .ok (Json.obj [("get_knowledge", Json.arr [Json.str "ab"])]) :=
  ⟨rfl, rfl, rfl, rfl⟩

/-- C6 (amended): only the answer and critique stages strip control
characters from the candidate before parsing; the plan and retrieve
stages and the chunker's grounding extraction parse the raw candidate,
so a raw parse failure there is final even when the stripped candidate
would parse.  The first conjunct settles the three raw-parsing call
sites (grounding extraction, plan stage, retrieve stage); the second
shows the answer stage parses the *stripped* candidate; the third shows
the critique stage's comment is determined by the value parsed from the
unicode-escaped, *stripped* candidate. -/
theorem c6_strip_scope_amended (s : String) :
    ((∀ c, stageCandidate s = some c → (pythonJsonLoads c).toOption = none) →
        extract_chunk s = "" ∧ planQueriesOf s = Json.arr []
        ∧ ∀ (vs : Json → List String → String) (st : AgentState),
            knowledge_retrieval_node s vs st =
              ({ st with content := Json.str "Failed to retrieve knowledge." }, []))
  ∧ (∀ c kvs, stageCandidate s = some c →
      pythonJsonLoads (stripCtrl c) = .ok (Json.obj kvs) →
        (answerStage s).final_answer =
          objGetD kvs "final_answer" (Json.arr [Json.str "Unknown"]))
  ∧ (∀ v, critiqueParsedJson s = some v →
      critiqueCommentOf s =
        (match pyGetItemStr v "comment" with
         | .error _ => Json.str "Failed to comment."
         | .ok cj => cj)) := by
  refine ⟨?_, ?_, ?_⟩
  · intro hraw
    refine ⟨?_, ?_, ?_⟩
    · unfold extract_chunk
      split
      · rfl
      · rename_i c hc
        split
        · rfl
        · rename_i v hl
          have h2 := hraw c hc
          rw [hl] at h2
          exact Option.noConfusion h2
    · have hnone : rawParsedJson s = none := by
        unfold rawParsedJson
        cases hc : stageCandidate s with
        | none => rfl
        | some c => exact hraw c hc
      exact planQueriesOf_of_invalid s hnone
    · intro vs st
      unfold knowledge_retrieval_node
      split
      · rfl
      · rename_i c hc
        split
        · rfl
        · rename_i v hl
          have h2 := hraw c hc
          rw [hl] at h2
          exact Option.noConfusion h2
  · intro c kvs hc hl
    have hsp : strippedParsedJson s = some (Json.obj kvs) := by
      unfold strippedParsedJson
      rw [hc]
      show (pythonJsonLoads (stripCtrl c)).toOption = some (Json.obj kvs)
      rw [hl]
      rfl
    rw [answerStage_of_obj s kvs hsp]
  · intro v hv
    unfold critiqueParsedJson at hv
    unfold critiqueCommentOf
    split
    · rename_i hc
      rw [hc] at hv
      exact Option.noConfusion hv
    · rename_i c hc
      have h2 : (match unicodeEscapeRoundTrip c with
                 | .error _ => none
                 | .ok u => (pythonJsonLoads (stripCtrl u)).toOption) = some v := by
        rw [hc] at hv
        exact hv
      split
      · rename_i e hu
        rw [hu] at h2
        exact Option.noConfusion h2
      · rename_i u hu
        rw [hu] at h2
        have h3 : (pythonJsonLoads (stripCtrl u)).toOption = some v := h2
        split
        · rename_i e hl
          rw [hl] at h3
          exact Option.noConfusion h3
        · rename_i w hl
          rw [hl] at h3
          have hw : w = v := Option.some.inj h3
          rw [hw]

/-- A critique response whose only JSON string value contains the
literal control character U+0001: the critique pipeline strips it and
parses successfully. -/
def ctrlCommentResp : String :=
  "\x7b\"comment\": \"a" ++ String.mk [Char.ofNat 1] ++ "b\"\x7d"

/-- Witness for the amended C6: the control-character candidate makes
the grounding extraction, the plan stage and the retrieve stage fail
(raw parse), while the answer stage and the critique stage parse their
stripped candidates. -/
theorem c6_amended_witness :
    (extract_chunk ctrlGroundResp = "" ∧ planQueriesOf ctrlGroundResp = Json.arr []
      ∧ knowledge_retrieval_node ctrlGroundResp stubSearch
          (initialState sampleQuestion sampleAgent) =
        ({ initialState sampleQuestion sampleAgent with
           content := Json.str "Failed to retrieve knowledge." }, []))
  ∧ (answerStage ctrlGroundResp).final_answer =
      objGetD [("related", Json.arr [Json.str "ab"])] "final_answer"
        (Json.arr [Json.str "Unknown"])
  ∧ critiqueCommentOf ctrlCommentResp = Json.str "ab" := by
  have hraw : ∀ c, stageCandidate ctrlGroundResp = some c →
      (pythonJsonLoads c).toOption = none := by
    intro c hc
    have h0 : stageCandidate ctrlGroundResp = some ctrlGroundResp := rfl
    have hce : ctrlGroundResp = c := Option.some.inj (h0.symm.trans hc)
    rw [← hce]
    rfl
  obtain ⟨w1, w2, w3⟩ := (c6_strip_scope_amended ctrlGroundResp).1 hraw
  exact ⟨⟨w1, w2, w3 stubSearch (initialState sampleQuestion sampleAgent)⟩,
         (c6_strip_scope_amended ctrlGroundResp).2.1 ctrlGroundResp
           [("related", Json.arr [Json.str "ab"])] rfl rfl,
         ((c6_strip_scope_amended ctrlCommentResp).2.2
           (Json.obj [("comment", Json.str "ab")]) rfl).trans rfl⟩

/-- C7: for every idea that yields a non-empty grounding chunk, the
produced chunk is the idea statement, a period and a space, and the
joined grounding sentences; on the Newton document with the stubbed
gateway, `split_text` returns exactly one chunk equal to
`"Newton's second law. Newton's second law: F = ma."`. -/
theorem c7_chunk_format :
    (∀ planR (ground : String → String),
       split_text (.ok planR) (fun i => .ok (ground i)) =
         (write_chunking_plan planR).filterMap (fun i =>
           if extract_chunk (ground i) = "" then none
           else some (i ++ ". " ++ extract_chunk (ground i))))
  ∧ split_text (.ok "Idea 1: Newton's second law")
      (fun _ => .ok "\x7b\"related\": [\"Newton's second law: F = ma.\"]\x7d") =
      ["Newton's second law. Newton's second law: F = ma."] := by
  constructor
  · intro planR ground
    exact chunkLoop_ok (fun i => .ok (ground i)) (write_chunking_plan planR) []
      (fun i _ => ⟨ground i, rfl⟩)
  · rfl

/-- C8 counterexample: the plan yields ideas `A` and `B`; the grounding
gateway raises on `A` and succeeds on `B` with a grounding that
produces the non-empty chunk `"s"`, yet `split_text` returns the empty
list — idea `B` is dropped although its own grounding extraction
succeeds, so a per-idea failure is fatal to the remaining ideas. -/
theorem c8_counterexample :
    split_text (.ok twoIdeaPlan) failAGround = []
    ∧ write_chunking_plan twoIdeaPlan = ["A", "B"]
    ∧ failAGround "B" = .ok okGroundResp
    ∧ extract_chunk okGroundResp = "s" :=
  ⟨rfl, rfl, rfl, rfl⟩

/-- C8 (amended): `split_text` never raises; a plan-stage gateway error
or zero extracted ideas yields the empty list; when the grounding
gateway never raises, exactly the ideas whose grounding extraction
fails or is empty are dropped while chunks for every other idea are
produced in order; and when the grounding gateway raises at some idea
(having succeeded on every earlier one), that idea and all later ones
are dropped and exactly the chunks of the successful prefix are
returned. -/
theorem c8_failure_semantics_amended (ground : String → Except String String)
    (e : String) (resp : String) :
    split_text (.error e) ground = []
  ∧ (write_chunking_plan resp = [] → split_text (.ok resp) ground = [])
  ∧ ((∀ i, ∃ t, ground i = .ok t) →
      split_text (.ok resp) ground =
        (write_chunking_plan resp).filterMap (fun i =>
          match ground i with
          | .ok t => if extract_chunk t = "" then none
                     else some (i ++ ". " ++ extract_chunk t)
          | .error _ => none))
  ∧ (∀ (pre : List String) (i : String) (post : List String) (er : String),
      write_chunking_plan resp = pre ++ i :: post →
      (∀ j ∈ pre, ∃ t, ground j = .ok t) →
      ground i = .error er →
      split_text (.ok resp) ground =
        pre.filterMap (fun j =>
          match ground j with
          | .ok t => if extract_chunk t = "" then none
                     else some (j ++ ". " ++ extract_chunk t)
          | .error _ => none)) := by
  refine ⟨rfl, ?_, ?_, ?_⟩
  · intro hp
    show chunkLoop ground (write_chunking_plan resp) [] = []
    rw [hp]
    rfl
  · intro hok
    exact chunkLoop_ok ground (write_chunking_plan resp) [] (fun i _ => hok i)
  · intro pre i post er hplan hok hi
    show chunkLoop ground (write_chunking_plan resp) [] = _
    rw [hplan]
    exact chunkLoop_error_prefix ground pre i post er [] hok hi

/-- The total grounding gateway stub used by the C8 witness. -/
def totalGroundStub : String → Except String String := fun _ => .ok okGroundResp

/-- A grounding gateway that answers idea `A` with a well-formed
grounding response and raises on idea `B`: the raise happens after a
non-empty prefix of successful ideas. -/
def failBGround : String → Except String String := fun i =>
  if i = "B" then .error "service unavailable" else .ok okGroundResp

/-- Witness for the amended C8, including the raising case with a
non-empty successful prefix: the grounding gateway succeeds on idea `A`
and raises on idea `B`, and exactly `A`'s chunk is returned. -/
theorem c8_amended_witness :
    split_text (.error "boom") totalGroundStub = []
  ∧ split_text (.ok "no ideas in this text") totalGroundStub = []
  ∧ split_text (.ok twoIdeaPlan) totalGroundStub =
      (write_chunking_plan twoIdeaPlan).filterMap (fun i =>
        match totalGroundStub i with
        | .ok t => if extract_chunk t = "" then none
                   else some (i ++ ". " ++ extract_chunk t)
        | .error _ => none)
  ∧ split_text (.ok twoIdeaPlan) failBGround = ["A. s"] := by
  have h1 := c8_failure_semantics_amended totalGroundStub "boom" "no ideas in this text"
  have h2 := c8_failure_semantics_amended totalGroundStub "boom" twoIdeaPlan
  have h3 := c8_failure_semantics_amended failBGround "boom" twoIdeaPlan
  have hok : ∀ j ∈ ["A"], ∃ t, failBGround j = .ok t := by
    intro j hj
    have hja : j = "A" := by simpa using hj
    rw [hja]
    exact ⟨okGroundResp, rfl⟩
  exact ⟨h1.1, h1.2.1 rfl, h2.2.2.1 (fun i => ⟨okGroundResp, rfl⟩),
         (h3.2.2.2 ["A"] "B" [] "service unavailable" rfl hok rfl).trans rfl⟩

/-- Decidable check that a value is a number in the closed unit
interval. -/
def confInUnitB (j : Json) : Bool :=
  match j with
  | Json.num qv => decide (0 ≤ qv ∧ qv ≤ 1)
  | _ => false

/-- C9 counterexample: a terminated run whose `confidence_score` is the
model-reported `2.5` — the value is stored unvalidated and lies outside
the closed unit interval. -/
theorem c9_counterexample :
    begin_answer conf25R stubSearch sampleQuestion sampleAgent =
      .ok { student_answer := Json.arr [Json.str "A"],
            confidence_score := Json.num (mkRat 5 2),
            justification := Json.str "x",
            is_correct := false }
    ∧ confInUnitB (Json.num (mkRat 5 2)) = false :=
  ⟨rfl, by decide⟩

/-- C9 (amended): for every terminated run, `confidence_score` is
either the failure default `0.0` or exactly the value stored under
`confidence_score` in the parsed answer object — no validation or
clamping to the unit interval is applied. -/
theorem c9_confidence_amended (r : StageResponses)
    (vs : Json → List String → String) (q : Question) (a : AgentDB)
    (res : RunResult) (h : begin_answer r vs q a = .ok res) :
    res.confidence_score = Json.num 0
  ∨ ∃ kvs, strippedParsedJson r.answerResp = some (Json.obj kvs)
      ∧ res.confidence_score = objGetD kvs "confidence_score" (Json.num 0) := by
  obtain ⟨st, tr, lg, s0, n, hg, hi, hl, h1, h2, h3, h4⟩ :=
    begin_answer_inv r vs q a res h
  have hcf := (runGraph_answer_fields r vs q a st tr lg hg).2.1
  rcases answerStage_cases r.answerResp with ⟨_, hz⟩ | ⟨kvs, hpj, _, hcv, _⟩
  · exact Or.inl (by rw [h2, hcf, hz])
  · exact Or.inr ⟨kvs, hpj, by rw [h2, hcf, hcv]⟩

/-- The result record of the run driven by `conf25R`. -/
def conf25Result : RunResult :=
  { student_answer := Json.arr [Json.str "A"],
    confidence_score := Json.num (mkRat 5 2),
    justification := Json.str "x",
    is_correct := false }

/-- Witness for the amended C9 at the out-of-range-confidence run. -/
theorem c9_amended_witness :
    conf25Result.confidence_score = Json.num 0
  ∨ ∃ kvs, strippedParsedJson conf25R.answerResp = some (Json.obj kvs)
      ∧ conf25Result.confidence_score = objGetD kvs "confidence_score" (Json.num 0) :=
  c9_confidence_amended conf25R stubSearch sampleQuestion sampleAgent
    conf25Result rfl

/-- C10: for every answer-stage response that parses as a valid JSON
object but lacks the expected keys, the answer stage substitutes
per-key defaults rather than the parse-failure sentinel: a missing
`final_answer` key yields `["Unknown"]`, a missing `confidence_score`
key yields `0.0`, and a missing `justification` key yields
`"No justification provided"`. -/
theorem c10_per_key_defaults (s : String) (kvs : List (String × Json))
    (h : strippedParsedJson s = some (Json.obj kvs)) :
    (objLookup kvs "final_answer" = none →
        (answerStage s).final_answer = Json.arr [Json.str "Unknown"])
  ∧ (objLookup kvs "confidence_score" = none →
        (answerStage s).confidence_score = Json.num 0)
  ∧ (objLookup kvs "justification" = none →
        (answerStage s).justification = Json.str "No justification provided") := by
  rw [answerStage_of_obj s kvs h]
  exact ⟨fun hk => objGetD_of_none kvs _ _ hk,
         fun hk => objGetD_of_none kvs _ _ hk,
         fun hk => objGetD_of_none kvs _ _ hk⟩

/-- A response whose candidate is the empty JSON object. -/
def emptyObjResp : String := "\x7b\x7d"

/-- Witness for C10 at the empty-object response: all three defaults
are substituted. -/
theorem c10_witness :
    (answerStage emptyObjResp).final_answer = Json.arr [Json.str "Unknown"]
  ∧ (answerStage emptyObjResp).confidence_score = Json.num 0
  ∧ (answerStage emptyObjResp).justification =
      Json.str "No justification provided" := by
  obtain ⟨f1, f2, f3⟩ := c10_per_key_defaults emptyObjResp [] rfl
  exact ⟨f1 rfl, f2 rfl, f3 rfl⟩

end StudentAgent
